import Mathlib

/-!
Shallow embedding of `generate_website.py`, a static-site generator that
reads a spreadsheet with an `Inventory` sheet and a `Demos` sheet and
renders three HTML pages.  Spreadsheet cells are modelled as strings (the
pandas cell values after `fillna('')`, so a missing cell reads as `""`); a
sheet is a header row plus data rows.  The HTML markup itself is
mechanical; the embedding captures the per-row decisions of the script
(which links, images, tags and descriptions are rendered) as card
view-models, and the run structure of `build_site` as an `Except` value.
`pyStrip`/`pyLower`/`splitChars`/`pyStartsWith` below model Python's
`str.strip`/`str.lower`/`re.split`/`str.startswith` over the characters of
a string (they agree with Python on the ASCII data these claims are
about); they recurse structurally so that every statement about them can
be settled on concrete inputs by evaluation.
-/

/-- Python's `str.strip()` with no argument: drop leading and trailing
whitespace. -/
def pyStrip (s : String) : String :=
  ⟨((s.data.dropWhile Char.isWhitespace).reverse.dropWhile Char.isWhitespace).reverse⟩

/-- Python's `str.lower()`: lower-case every character. -/
def pyLower (s : String) : String := ⟨s.data.map Char.toLower⟩

/-- Split a character list at every character satisfying `p`, keeping
empty pieces (the semantics of `String.split`; `re.split` with a `+` on
the class differs only by collapsing adjacent separators, i.e. by extra
empty pieces, which every consumer below filters out). -/
def splitChars (p : Char → Bool) : List Char → List String
  | [] => [""]
  | c :: cs =>
    let rest := splitChars p cs
    if p c then "" :: rest
    else
      match rest with
      | [] => [⟨[c]⟩]
      | t :: ts => (⟨c :: t.data⟩ : String) :: ts

/-- Python's `str.startswith`. -/
def pyStartsWith (s pre : String) : Bool := pre.data.isPrefixOf s.data

/-- A parsed sheet, as a pandas `DataFrame`: named columns over rows of
string cells. -/
structure Frame where
  columns : List String
  rows : List (List String)
  deriving DecidableEq

/-- `row[name]`: the cell of row `r` under column `name` of `cols`.  A
missing column or a short row reads as the empty string (the claims never
exercise the `KeyError` path of pandas row access). -/
def cellAt (cols : List String) (r : List String) (name : String) : String :=
  match cols.findIdx? (fun c => c == name) with
  | some i => r.getD i ""
  | none => ""

/-- `pd.ExcelFile.parse` with its default `header=0`: the first row of the
grid is the header row, every following row is data. -/
def parseSheet (grid : List (List String)) : Frame :=
  ⟨grid.headD [], grid.tail⟩

/-- The seven standard inventory column names that `load_data` assigns. -/
def standardCols : List String :=
  ["Manufacturer", "Common Name", "Partnumber", "Link", "Image", "ImageURL", "GithubIndex"]

/-- `load_data`'s column renaming: the first seven columns are renamed
positionally to `standardCols` whatever their spelling, any further
columns keep their names; with fewer than seven columns, the first
`len(cols)` standard names are used. -/
def renameCols (cols : List String) : List String :=
  if standardCols.length ≤ cols.length then
    standardCols ++ cols.drop standardCols.length
  else
    standardCols.take cols.length

/-- `load_data`'s inventory normalisation: rename the columns, drop every
row whose raw `Manufacturer` cell lower-cases to "manufacturer" (a
duplicated header artifact), then trim every cell
(`applymap(lambda x: x.strip() ...)`).  The duplicate-header filter runs
on the raw, untrimmed cell values; trimming happens only afterwards. -/
def loadInventory (sheet : Frame) : Frame :=
  let cols := renameCols sheet.columns
  let kept := sheet.rows.filter
    (fun r => pyLower (cellAt cols r "Manufacturer") != "manufacturer")
  ⟨cols, kept.map (fun r => r.map pyStrip)⟩

/-- `load_data`'s demos normalisation: only `fillna('')` is applied, which
the string cell model already absorbs, so the frame passes through
unchanged (in particular demo cells are NOT trimmed here). -/
def normDemos (sheet : Frame) : Frame := sheet

/-- The spreadsheet file: named sheets holding raw cell grids. -/
structure Workbook where
  sheets : List (String × List (List String))

/-- `load_data`: open the workbook (`pd.ExcelFile` raises when the file is
absent, modelled by the `none` input), parse the `Inventory` and `Demos`
sheets (`xl.parse` raises when a sheet is missing) and normalise both. -/
def load_data (file : Option Workbook) : Except String (Frame × Frame) :=
  match file with
  | none => Except.error "FileNotFoundError: Board Catalog3.xlsx"
  | some wb =>
    match wb.sheets.lookup "Inventory" with
    | none => Except.error "ValueError: no sheet named Inventory"
    | some inv =>
      match wb.sheets.lookup "Demos" with
      | none => Except.error "ValueError: no sheet named Demos"
      | some demos =>
        Except.ok (loadInventory (parseSheet inv), normDemos (parseSheet demos))

/-- One or more ASCII digits with single underscores allowed between
digits, as Python's `int` accepts; `acc` is the value of the digits
already consumed. -/
def pyDigitsAux : List Char → Nat → Option Nat
  | [], acc => some acc
  | '_' :: c :: cs, acc =>
    if c.isDigit then pyDigitsAux cs (acc * 10 + (c.toNat - 48)) else none
  | c :: cs, acc =>
    if c.isDigit then pyDigitsAux cs (acc * 10 + (c.toNat - 48)) else none

/-- Value of a run of digits (with interior underscores), or `none` when
the run is empty or malformed. -/
def pyDigitsVal : List Char → Option Nat
  | [] => none
  | c :: cs => if c.isDigit then pyDigitsAux cs (c.toNat - 48) else none

/-- Python's `int(s)` on a string: surrounding whitespace stripped, an
optional sign, then digits; `none` models the `ValueError` raised on
anything else (e.g. `""`, `"abc"`, `"1.5"`). -/
def pyInt (s : String) : Option Int :=
  match (pyStrip s).data with
  | '+' :: cs => (pyDigitsVal cs).map (fun n => (n : Int))
  | '-' :: cs => (pyDigitsVal cs).map (fun n => -(n : Int))
  | cs => (pyDigitsVal cs).map (fun n => (n : Int))

/-- The team-count cell parser inside `generate_inventory`:
`count = int(val) if str(val).strip() else 0`, with `ValueError` and
`TypeError` caught and silently mapped to 0. -/
def parseCount (val : String) : Int :=
  if pyStrip val = "" then 0
  else
    match pyInt val with
    | some n => n
    | none => 0

/-- `sorted(['KK', 'ML', 'NM', 'SD', 'SL', 'ZA'])`. -/
def teamMembers : List String := ["KK", "ML", "NM", "SD", "SL", "ZA"]

/-- The per-row rendering decisions of `generate_inventory`: which image,
product-page link and GitHub reference appear on the card, plus the team
inventory counts (one entry per team-member column present in the row). -/
structure InventoryCard where
  name : String
  manufacturer : String
  partnumber : String
  imageShown : Option String
  productLinkShown : Option String
  githubLinkShown : Option String
  teamCounts : List (String × Int)
  deriving DecidableEq

/-- The body of `generate_inventory`'s row loop. -/
def projectInventory (cols : List String) (r : List String) : InventoryCard :=
  let manufacturer := pyStrip (cellAt cols r "Manufacturer")
  let name := cellAt cols r "Common Name"
  let partnum := cellAt cols r "Partnumber"
  let link := cellAt cols r "Link"
  let image :=
    if cellAt cols r "ImageURL" ≠ "" then cellAt cols r "ImageURL" else cellAt cols r "Image"
  let ghIndex := cellAt cols r "GithubIndex"
  let ghClean := pyLower (pyStrip ghIndex)
  { name := name
    manufacturer := manufacturer
    partnumber := partnum
    imageShown := if image ≠ "" ∧ pyLower image ≠ "no" then some image else none
    productLinkShown :=
      if link ≠ "" ∧ pyStrip link ≠ "" ∧ pyLower link ≠ "no" then some link else none
    githubLinkShown :=
      if ghClean ≠ "" ∧ ghClean ≠ "no" ∧ ghClean ≠ "in github index" then some ghIndex
      else none
    teamCounts :=
      teamMembers.filterMap (fun m =>
        if cols.contains m then some (m, parseCount (cellAt cols r m)) else none) }

/-- The in-code description lookup table of `generate_website.py`, keyed by
the `Github Link` value (the module docstring asks for lowercase keys, but
some keys do carry uppercase letters).  Values are transcribed verbatim. -/
def descriptions : List (String × String) :=
  [("https://github.com/avnet-iotconnect/avnet-iotc-mtb-ai-fall-detection",
    "This fall detection demo integrates Infineon's ModusToolbox™ " ++
    "machine‑learning flow with Avnet's IoTConnect platform. The " ++
    "application uses data from the on‑board inertial measurement " ++
    "unit (IMU) to recognise when a person has fallen and reports " ++
    "these events to IoTConnect."),
   ("https://github.com/avnet-iotconnect/avnet-iotc-mtb-ai-imagimob-rm",
    "This project demonstrates ModusToolbox™ machine learning with " ++
    "Imagimob ready models, combining audio and radar sensor data. " ++
    "It can detect a variety of audio events such as sirens, baby " ++
    "cry, alarms, coughs and snoring, and also recognises hand " ++
    "gestures using the board's radar sensor."),
   ("https://github.com/avnet-iotconnect/iotc-azurertos-sdk/tree/main/samples/wfi32iot",
    "This example connects the WFI32-IoT Development Board to Avnet's " ++
    "IoTConnect platform built on Microsoft Azure and uses Azure RTOS " ++
    "to simplify cloud firmware development.  The WFI32 board " ++
    "features integrated sensors and supports mikroBUS™ expansion for " ++
    "additional click‑board sensors."),
   ("github.com/avnet-iotconnect/iotc-arduino-mchp-avr-sdk",
    "IoTConnect C SDK example for the AVR IoT Cellular Mini board. " ++
    "The application records button presses and collects on‑board sensor readings " ++
    "(temperature and RGB light) and sends telemetry to IoTConnect. It also supports " ++
    "simple commands to control LEDs and guides you through provisioning the board and " ++
    "activating the cellular modem【874701100138764†L16-L33】."),
   ("github.com/avnet-iotconnect/iotc-lora-demos",
    "Guide for onboarding LoRaWAN devices to IoTConnect. It walks through creating templates " ++
    "and configuring device attributes such as temperature, pressure, humidity and accelerometer for " ++
    "ST ASTRA1B and NUCLEO-WL55JC boards, creating LoRaWAN devices in the portal and sending telemetry " ++
    "and commands【292712103470442†L0-L37】."),
   ("https://github.com/avnet-iotconnect/iotc-lora-demos/blob/master/docs/iotc-lora-device-onboard.md",
    "Guide for onboarding LoRaWAN devices to IoTConnect. It walks through creating templates " ++
    "and configuring device attributes such as temperature, pressure, humidity and accelerometer for " ++
    "ST ASTRA1B and NUCLEO-WL55JC boards, creating LoRaWAN devices in the portal and sending telemetry " ++
    "and commands【292712103470442†L0-L37】."),
   ("https://github.com/avnet-iotconnect/iotc-azurertos-stm32-h5/tree/solar-demo",
    "Quick‑start application for the STM32H573I‑DK Discovery Kit using the IoTConnect Azure RTOS SDK. " ++
    "The guide demonstrates how to program the board, provision secure credentials using STM32 Trust TEE and connect " ++
    "the device to IoTConnect. It includes step‑by‑step instructions for flashing the demo firmware and configuring " ++
    "IoTConnect templates and devices【965771049940744†L0-L10】【965771049940744†L34-L56】."),
   ("https://github.com/avnet-iotconnect/iotc-evse-example",
    "Electric Vehicle Supply Equipment (EVSE) demo that connects a charging station to IoTConnect. " ++
    "It showcases how to monitor charging sessions, report energy consumption and control the charger via " ++
    "cloud commands, providing a starting point for building smart EV charging solutions."),
   ("https://github.com/avnet-iotconnect/iotc-freertos-ck-ra6m5-v2-pmod/blob/master/quickstart.md",
    "Example project for the Renesas CK‑RA6M5 v2 Cloud Kit. It uses an IoTConnect AT‑command‑enabled " ++
    "Wi‑Fi module (DA16600) to connect the board to IoTConnect. The demo sends telemetry and supports " ++
    "commands such as toggling the red LED and setting the LED blink frequency on the board【800432738539176†L0-L33】."),
   ("https://github.com/avnet-iotconnect/iotc-freertos-ek-ra8m1-pmod/blob/main/quickstart.md",
    "Example project for the Renesas EK‑RA8M1 evaluation kit that uses a DA16600 Wi‑Fi/BLE module to connect " ++
    "to IoTConnect. The application streams telemetry and allows controlling the on‑board LEDs via IoTConnect commands. " ++
    "It includes guidance for configuring IoTConnect credentials and automatically provisioning the Wi‑Fi module【690995123275253†L1-L39】."),
   ("https://github.com/avnet-iotconnect/iotc-freertos-stm32-u5-ml-demo",
    "Smart‑city noise detection demo for the STM32U5 MCU. The system uses machine‑learning to classify " ++
    "sounds such as alarms, dog barks, speech and car horns and runs inference locally on the microcontroller. " ++
    "Recognised events and confidence scores are sent to IoTConnect for visualisation【826445224230491†L13-L33】."),
   ("https://github.com/avnet-iotconnect/iotc-gateway-mobile-app",
    "Mobile phone/tablet application that acts as a Bluetooth gateway for IoTConnect. " ++
    "The app connects to edge devices such as the ST SensorTile.box Pro, captures telemetry " ++
    "via BLE and forwards it to IoTConnect. It guides users through account setup, device " ++
    "onboarding and viewing live dashboards on the platform【468367397686330†L0-L12】【113733062754822†L1-L16】."),
   ("https://github.com/avnet-iotconnect/iotc-isp-tune-stm32",
    "Demonstration of remote ISP tuning using IoTConnect. On STM32MP257F Discovery Kit it allows users " ++
    "to stream live video, adjust image signal processor parameters like exposure and gain, and view " ++
    "real‑time telemetry from the image sensor through a cloud dashboard【217840730141104†L0-L18】."),
   ("https://github.com/avnet-iotconnect/iotc-python-greengrass-demos",
    "Collection of AWS Greengrass components built with the IoTConnect Python SDK. " ++
    "Includes an AI vision demo that detects objects using a connected camera and BLE demos " ++
    "that gather battery, accelerometer, gyroscope and temperature data from sensors and send it to " ++
    "IoTConnect【274435493494004†L19-L33】."),
   ("https://github.com/avnet-iotconnect/iotc-python-greengrass-sdk",
    "Python SDK for building AWS Greengrass components that integrate with IoTConnect. " ++
    "The SDK provides examples showing how to send telemetry, receive commands and perform OTA updates " ++
    "from IoTConnect【687962983880631†L0-L9】."),
   ("https://github.com/avnet-iotconnect/iotc-python-lite-sdk-demos/tree/main/nxp-frdm-imx-93",
    "Quickstart demo for the NXP FRDM i.MX 93 platform using the IoTConnect Python Lite SDK. " ++
    "The board features tri‑radio connectivity (Wi‑Fi 6, Bluetooth 5.4 and 802.15.4), enabling rapid " ++
    "development of IoT applications. This project shows how to push telemetry to IoTConnect and receive " ++
    "commands from the cloud【754711850195754†L13-L21】."),
   ("https://github.com/avnet-iotconnect/iotc-st-image-classification/tree/initial",
    "Image classification demo for the STM32MP2 platform. The project converts a TensorFlow model to " ++
    "TFLite, deploys it via IoTConnect OTA and performs inference on images from a USB or MIPI camera. " ++
    "It includes instructions for flashing the device, setting up the camera and running the application " ++
    "using a MobileNet V2 model【942375534736030†L8-L13】."),
   ("https://github.com/avnet-iotconnect/iotc-stm32-n6-demos",
    "Edge AI demo for the STM32N6 platform demonstrating object detection using an embedded vision model. " ++
    "The application streams detection results to IoTConnect where bounding boxes and labels can be visualised【381494776928458†L16-L20】."),
   ("https://github.com/avnet-iotconnect/iotc-stm32-n6-demos/blob/main/doc/quickstart.md",
    "Edge AI demo for the STM32N6 platform demonstrating object detection using an embedded vision model. " ++
    "The application streams detection results to IoTConnect where bounding boxes and labels can be visualised【381494776928458†L16-L20】."),
   ("https://github.com/avnet-iotconnect/meta-iotconnect-docs/blob/main/quickstart/rzboardv2l.md",
    "Quickstart guide for connecting the Renesas RZBoard V2L to IoTConnect and running the on‑board " ++
    "AI camera demo. The document covers flashing the SD card image, configuring the board and " ++
    "IoTConnect account, and using an attached USB camera for object recognition with real‑time " ++
    "telemetry streamed to IoTConnect【824565593290388†L19-L31】."),
   ("https://github.com/avnet-iotconnect/meta-iotconnect-docs/blob/main/quickstart/st/stm32mp257/demo-iotc-x-linux-ai/quickstart_webinar.md",
    "Quickstart for the STM32MP257‑EV1 evaluation board demonstrating an on‑board image classification " ++
    "application. It shows how to flash a custom Linux image, configure IoTConnect templates and run the " ++
    "demo which recognises objects using the board’s AI accelerator and streams results to IoTConnect【263021875027644†L19-L27】."),
   ("https://github.com/avnet-iotconnect/meta-iotconnect-docs/tree/main/build/stm32mp1/mickledore-st-x-linux-ai-demo",
    "This repository contains build scripts and documentation for generating the ST X-Linux AI demo image " ++
    "for the STM32MP1 platform with IoTConnect support. It is used to build and customise the Linux image " ++
    "rather than providing a standalone demo application."),
   ("https://github.com/avnet-iotconnect/proteus-neai-demo",
    "NEAI anomaly detection demo using the STM32MP157F Discovery Kit and the STEVAL‑PROTEUS1 sensor module. " ++
    "The application runs AI models on the edge to detect unusual patterns and reports anomalies to " ++
    "IoTConnect for real‑time monitoring【164214425624126†L0-L4】."),
   ("https://github.com/avnet/qcs6490-vision-ai-demo/pull/1",
    "Vision AI demo for the Qualcomm QCS6490 platform. It demonstrates real‑time video analytics such as " ++
    "object detection and classification using the platform’s AI capabilities and streams results to IoTConnect. " ++
    "This link references an early pull request of the project."),
   ("https://github.com/avnet-iotconnect/avnet-iotc-mtb-xensiv-example/blob/main/quickstart.md",
    "Quickstart for Infineon’s XENSIV PAS CO2 kit. The guide shows how to connect the sensor board to " ++
    "IoTConnect using the Optiga Trust M secure element for hardware security. It walks through flashing the " ++
    "PSoC6 Wi‑Fi/Bluetooth controller, provisioning the secure element and registering the device on IoTConnect, " ++
    "then demonstrates streaming CO₂ measurements to an IoTConnect dashboard【956483977938127†L0-L20】."),
   ("https://github.com/avnet-iotconnect/avnet-iotc-mtb-xensiv-example/blob/main/QUICKSTART.md",
    "Quickstart for Infineon’s XENSIV PAS CO2 kit. The guide shows how to connect the sensor board to " ++
    "IoTConnect using the Optiga Trust M secure element for hardware security. It walks through flashing the " ++
    "PSoC6 Wi‑Fi/Bluetooth controller, provisioning the secure element and registering the device on IoTConnect, " ++
    "then demonstrates streaming CO₂ measurements to an IoTConnect dashboard【956483977938127†L0-L20】."),
   ("https://github.com/avnet/rasynboard-out-of-box-demo/blob/rasynboard_v2_tiny/docs/rasynpuckdemo.md",
    "Wireless, battery‑operated demo for the Avnet RASynBoard showcasing a compact sensor puck. " ++
    "Telemetry from the puck (such as accelerometer and environmental data) is sent to an IoTConnect dashboard. " ++
    "The out‑of‑box application serves as a starting point for ML training and custom developments【112735431798390†L1-L9】."),
   ("https://github.com/avnet/spark",
    "SPARK is a smart parking and EV charging demo running on the Renesas RZBoard V2L. " ++
    "It uses a convolutional neural network to detect vehicle occupancy in real‑time, scales to hundreds " ++
    "of parking spots and can stream analytics data to IoTConnect or display it locally via HDMI【272053794077069†L8-L18】."),
   ("https://github.com/mlamp99/stsafe-demo",
    "Device logger demo that manages two USB‑connected devices via serial communication. " ++
    "It integrates with IoTConnect to send telemetry, handle start/stop commands and store logs. " ++
    "The project demonstrates how to build a simple command and logging system using the IoTConnect " ++
    "SDK【973401288461139†L1-L10】."),
   ("https://indeema.com/industries/drones-and-uav",
    "Overview of Indeema’s custom drone and UAV solutions. The company builds bespoke drones with integrated " ++
    "autopilot, advanced sensors and AI/IoT software to solve real‑world challenges across industries such as " ++
    "energy, agriculture and inspection【758468692581520†L85-L100】【758468692581520†L87-L99】."),
   ("https://saleshosted.z13.web.core.windows.net/dashboard/r2/mcp-telehealth.png",
    "Telehealth demo using the IoTConnect mobile gateway application. Wearable or remote health sensors connect " ++
    "via Bluetooth to the mobile app, which forwards vital signs and events to IoTConnect for monitoring and " ++
    "visualisation."),
   ("https://witekio.com/blog/ev-charging-software/",
    "Article by Witekio discussing the challenges and considerations in EV charging software. " ++
    "It highlights the need for load balancing, secure user authentication, remote monitoring and integration " ++
    "with backend management platforms for smart EV chargers."),
   ("https://www.hackster.io/albertabeef/asl-classification-with-vitis-ai-025765",
    "Hackster project that trains and deploys an American Sign Language (ASL) classification model using Vitis AI. " ++
    "The demo runs on an AMD/Xilinx platform and shows how to process camera images and send classified gestures " ++
    "to the cloud, which can be adapted for IoTConnect demonstrations."),
   ("https://www.hackster.io/nik-markovic/getting-started-with-avr-iot-cellular-mini-b08e05",
    "Hackster guide for getting started with the AVR IoT Cellular Mini. It walks through setting up the board, " ++
    "activating the SIM, collecting sensor data and connecting to IoTConnect via the provided C SDK. " ++
    "The demo monitors temperature, light and button presses and sends telemetry to the cloud.")]

/-- The stopword set `ignore` used for tag derivation in `generate_demos`. -/
def ignore : List String :=
  ["ai", "kit", "demo", "demos", "project", "and", "the", "with", "example",
   "fall", "sensor", "detection", "autonomous", "mini", "all"]

/-- A tag separator: the character class of `re.split(r'[\s\-]+', ...)`. -/
def isSep (c : Char) : Bool := c == '-' || c.isWhitespace

/-- The dashboard image columns, in spreadsheet order. -/
def dashCols : List String :=
  ["Dashboard 1", "Dashboard 2", "Dashboard 3", "Dashboard 4", "Dashboard 5", "Dashboard 6"]

/-- The demo image columns, in spreadsheet order. -/
def demoImgCols : List String :=
  ["Demo Image 1", "Demo Image 2", "Demo Image 3", "Demo Image 4", "Demo Image 5"]

/-- The placeholder used when no description is available. -/
def placeholderDescription : String := "Refer to the linked repository for more details."

/-- The per-row rendering decisions of `generate_demos`: name, targets,
derived tags, resolved description, GitHub link (with scheme), and the two
image lists as collected from the row. -/
structure DemoCard where
  name : String
  manufacturer : String
  targets : List String
  tags : List String
  description : String
  githubLinkShown : Option String
  dashboards : List String
  demoImgs : List String
  deriving DecidableEq

/-- The body of `generate_demos`'s row loop.  Tag tokens come from
`re.split(r'[\s\-]+', demo_name)`; `String.split` on the same character
class differs from the run-collapsing regex split only by extra empty
tokens, which the comprehension's `if w` filter discards either way. -/
def projectDemo (cols : List String) (r : List String) : DemoCard :=
  let manufacturer := pyStrip (cellAt cols r "Manufacturer")
  let demoName := pyStrip (cellAt cols r "Demo")
  let targets :=
    (["Target 1", "Target 2", "Target 3", "Target 4"]).filterMap (fun c =>
      if cellAt cols r c ≠ "" then some (pyStrip (cellAt cols r c)) else none)
  let ghLink := pyStrip (cellAt cols r "Github Link")
  let explicitDesc := pyStrip (cellAt cols r "Demo Description")
  let dictDesc := pyStrip ((descriptions.lookup (pyLower ghLink)).getD "")
  let description :=
    if explicitDesc ≠ "" then explicitDesc
    else if dictDesc ≠ "" then dictDesc
    else placeholderDescription
  let words := splitChars isSep demoName.data
  let tags := words.filterMap (fun w =>
    if w ≠ "" ∧ ¬ ignore.contains (pyLower w) then some (pyLower w) else none)
  { name := demoName
    manufacturer := manufacturer
    targets := targets
    tags := tags
    description := description
    githubLinkShown :=
      if ghLink ≠ "" ∧ pyLower ghLink ≠ "no" ∧ pyLower ghLink ≠ "-" then
        some (if pyStartsWith (pyLower ghLink) "http" then ghLink else "https://" ++ ghLink)
      else none
    dashboards := dashCols.filterMap (fun c =>
      if pyStrip (cellAt cols r c) ≠ "" ∧ pyStrip (cellAt cols r c) ≠ "-" then
        some (cellAt cols r c)
      else none)
    demoImgs := demoImgCols.filterMap (fun c =>
      if pyStrip (cellAt cols r c) ≠ "" then some (cellAt cols r c) else none) }

/-- A generated page, abstracted to the data that determines it. -/
inductive Page where
  | indexPage (numBoards numDemos : Nat)
  | inventoryPage (cards : List InventoryCard)
  | demosPage (cards : List DemoCard)

/-- `build_site`: load and normalise the data, then write the three pages.
`load_data` runs before any file is created, so a load failure propagates
and the run ends with no output written: the `.ok` payload lists exactly
the files a run writes, in write order. -/
def build_site (file : Option Workbook) : Except String (List (String × Page)) :=
  match load_data file with
  | Except.error e => Except.error e
  | Except.ok (inv, demos) =>
    Except.ok
      [("index.html", Page.indexPage inv.rows.length demos.rows.length),
       ("inventory.html", Page.inventoryPage (inv.rows.map (projectInventory inv.columns))),
       ("demos.html", Page.demosPage (demos.rows.map (projectDemo demos.columns)))]

/-- The Demos sheet columns the script reads, in spreadsheet order. -/
def demosCols : List String :=
  ["Manufacturer", "Demo", "Target 1", "Target 2", "Target 3", "Target 4",
   "Github Link", "Demo Description"] ++ dashCols ++ demoImgCols

/-- A demo row with an empty explicit description whose `Github Link` is a
key of the `descriptions` table. -/
def c1row : List String :=
  ["Renesas", "SPARK Parking", "", "", "", "", "https://github.com/avnet/spark", ""]

/-- A demo row with an empty explicit description whose `Github Link` is
not a key of the `descriptions` table. -/
def c1wrow : List String :=
  ["Acme", "My Widget", "", "", "", "", "https://example.com/none-such", ""]

/-- The spec's end-to-end demo scenario row: empty description and tags,
demo name "Fall Detection AI Demo". -/
def c2row : List String :=
  ["Infineon", "Fall Detection AI Demo", "", "", "", "", "", ""]

/-- An inventory row carrying both a product link and a GitHub index
reference, neither a sentinel. -/
def c3row : List String :=
  ["Acme", "Widget", "W-1", "http://x", "no", "", "http://gh"]

/-- An inventory header row whose first cell is a part-number alias and
whose second is an unrecognised label. -/
def c4cols : List String :=
  ["PN", "Notes", "Partnumber", "Link", "Image", "ImageURL", "GithubIndex", "KK"]

/-- The spec's end-to-end inventory scenario: the true header stands on
row 3, below three non-blank junk rows, with one data row after it. -/
def c5grid : List (List String) :=
  [["Board Catalog export", "", "", "", "", ""],
   ["internal use only", "", "", "", "", ""],
   ["updated 2024", "", "", "", "", ""],
   ["Mfr", "Name", "PN", "Link", "Img", "GH"],
   ["Acme", "Widget", "W-100", "http://x", "no", "no"]]

/-- A demo row whose first dashboard cell and first demo-image cell both
hold the sentinel "-". -/
def c6row : List String :=
  ["Acme", "Gizmo", "", "", "", "", "", "", "-", "", "", "", "", "", "-"]

/-- An inventory sheet with one row whose raw `Manufacturer` cell is
" Manufacturer " (a header echo padded with spaces). -/
def c8sheet : Frame :=
  ⟨["Manufacturer", "Common Name", "Partnumber", "Link", "Image", "ImageURL", "GithubIndex"],
   [[" Manufacturer ", "Widget", "W-1", "", "", "", ""]]⟩

/-- Inventory columns extended with the team-member column "KK". -/
def c9cols : List String := standardCols ++ ["KK"]

/-- An inventory row whose "KK" count cell is non-numeric. -/
def c9row : List String := ["Acme", "Widget", "W-1", "", "", "", "", "x7"]

/-- A demo row whose `Github Link` cell is empty. -/
def c10row : List String :=
  ["Acme", "Edge Vision", "", "", "", "", "", "Some description"]

/-- A demo row whose `Github Link` lacks a scheme. -/
def c10wrow : List String :=
  ["Acme", "Gadget", "", "", "", "", "github.com/acme/repo", ""]
/-- The tag pipeline over any token list: keeping the lower-casing of the
non-empty tokens outside the stopword set equals filtering the non-empty
tokens, lower-casing them, then dropping stopwords. -/
theorem tagPipeline (l : List String) :
    (l.filterMap fun w =>
      if w ≠ "" ∧ ¬ ignore.contains (pyLower w) then some (pyLower w) else none) =
    ((l.filter (fun w => w != "")).map pyLower).filter
      (fun w => !(ignore.contains w)) := by
  induction l with
  | nil => rfl
  | cons a l ih =>
    by_cases h1 : a = "" <;> by_cases h2 : ignore.contains (pyLower a) <;>
      simp_all [List.filter_cons]

/-- Collecting the dashboard cells of a row from any column list equals
filtering the mapped cells on the non-blank, non-"-" condition. -/
theorem dashPipeline (cols r L : List String) :
    (L.filterMap fun c =>
      if pyStrip (cellAt cols r c) ≠ "" ∧ pyStrip (cellAt cols r c) ≠ "-" then
        some (cellAt cols r c)
      else none) =
    (L.map (cellAt cols r)).filter
      (fun v => pyStrip v != "" && pyStrip v != "-") := by
  induction L with
  | nil => rfl
  | cons a L ih =>
    by_cases h1 : pyStrip (cellAt cols r a) = "" <;>
      by_cases h2 : pyStrip (cellAt cols r a) = "-" <;>
        simp_all [List.filter_cons]

/-- Collecting the demo-image cells of a row from any column list equals
filtering the mapped cells on the non-blank condition alone. -/
theorem imgPipeline (cols r L : List String) :
    (L.filterMap fun c =>
      if pyStrip (cellAt cols r c) ≠ "" then some (cellAt cols r c) else none) =
    (L.map (cellAt cols r)).filter (fun v => pyStrip v != "") := by
  induction L with
  | nil => rfl
  | cons a L ih =>
    by_cases h1 : pyStrip (cellAt cols r a) = "" <;> simp_all [List.filter_cons]

/-- Claim C7: when loading the data source fails (file absent or a
required sheet missing), the whole generation run ends with that error and
the run's write list is never produced: no output file is written, so no
partial site results from a failed run. -/
theorem C7_no_partial_output (file : Option Workbook) (e : String)
    (h : load_data file = Except.error e) : build_site file = Except.error e := by
  simp [build_site, h]

/-- Witness for C7 at the concrete input of a missing file. -/
theorem C7_no_partial_output_witness :
    build_site none = Except.error "FileNotFoundError: Board Catalog3.xlsx" :=
  C7_no_partial_output none "FileNotFoundError: Board Catalog3.xlsx" rfl

/-- Claim C9: for every inventory row and team-initial column present in
the row, a blank or non-numeric count cell projects to the count 0, with
the card still produced (the total projection never fails or skips the
row). -/
theorem C9_team_count_default (cols r : List String) (m : String)
    (hm : m ∈ teamMembers) (hc : cols.contains m = true)
    (hbad : pyStrip (cellAt cols r m) = "" ∨ pyInt (cellAt cols r m) = none) :
    (m, 0) ∈ (projectInventory cols r).teamCounts := by
  have hz : parseCount (cellAt cols r m) = 0 := by
    rcases hbad with h | h
    · simp [parseCount, h]
    · by_cases ht : pyStrip (cellAt cols r m) = ""
      · simp [parseCount, ht]
      · simp [parseCount, ht, h]
  have hpr : (projectInventory cols r).teamCounts =
      teamMembers.filterMap (fun x =>
        if cols.contains x then some (x, parseCount (cellAt cols r x)) else none) := rfl
  rw [hpr]
  refine List.mem_filterMap.mpr ⟨m, hm, ?_⟩
  rw [if_pos hc, hz]

/-- Witness for C9 at a concrete row whose "KK" cell reads "x7". -/
theorem C9_team_count_default_witness :
    ("KK", 0) ∈ (projectInventory c9cols c9row).teamCounts :=
  C9_team_count_default c9cols c9row "KK" (by decide) (by decide) (Or.inr (by decide))

/-- Claim C1 (amended): the rendered description is the trimmed explicit
description field when that is non-empty; otherwise the non-empty trimmed
entry of the in-code `descriptions` table under the lower-cased GitHub
link, when one exists; otherwise the static placeholder string. -/
theorem C1_description_precedence (cols r : List String) :
    (pyStrip (cellAt cols r "Demo Description") ≠ "" →
      (projectDemo cols r).description = pyStrip (cellAt cols r "Demo Description")) ∧
    (pyStrip (cellAt cols r "Demo Description") = "" →
      pyStrip ((descriptions.lookup (pyLower (pyStrip (cellAt cols r "Github Link")))).getD "") ≠ "" →
      (projectDemo cols r).description =
        pyStrip ((descriptions.lookup (pyLower (pyStrip (cellAt cols r "Github Link")))).getD "")) ∧
    (pyStrip (cellAt cols r "Demo Description") = "" →
      pyStrip ((descriptions.lookup (pyLower (pyStrip (cellAt cols r "Github Link")))).getD "") = "" →
      (projectDemo cols r).description = placeholderDescription) := by
  have hd : (projectDemo cols r).description =
      (if pyStrip (cellAt cols r "Demo Description") ≠ "" then
        pyStrip (cellAt cols r "Demo Description")
      else if pyStrip ((descriptions.lookup (pyLower (pyStrip (cellAt cols r "Github Link")))).getD "") ≠ "" then
        pyStrip ((descriptions.lookup (pyLower (pyStrip (cellAt cols r "Github Link")))).getD "")
      else placeholderDescription) := rfl
  refine ⟨fun h1 => ?_, fun h1 h2 => ?_, fun h1 h2 => ?_⟩ <;> rw [hd]
  · rw [if_pos h1]
  · rw [if_neg (not_not_intro h1), if_pos h2]
  · rw [if_neg (not_not_intro h1), if_neg (not_not_intro h2)]

/-- Witness for C1 at a row with an empty description and a GitHub link
absent from the lookup table: the placeholder is rendered. -/
theorem C1_description_precedence_witness :
    (projectDemo demosCols c1wrow).description = placeholderDescription :=
  (C1_description_precedence demosCols c1wrow).2.2 (by decide) (by decide)

/-- Counterexample to claim C1 as stated: `c1row` has an empty explicit
description field, yet the rendered description is not the placeholder —
it is supplied by the in-code lookup table keyed by the GitHub link. -/
theorem C1_counterexample :
    cellAt demosCols c1row "Demo Description" = "" ∧
    (projectDemo demosCols c1row).description ≠ placeholderDescription := by decide

/-- Claim C2 (amended): tags are always derived from the trimmed demo name
(the script reads no explicit tags column): the name is split on
whitespace/hyphen separators, the non-empty tokens are lower-cased, tokens
in the fixed stopword set are dropped, order is preserved, nothing is
deduplicated and no count cap is applied; the scenario name
"Fall Detection AI Demo" yields the empty tag list, because "detection"
(like "fall", "ai" and "demo") is itself a stopword. -/
theorem C2_tag_rules :
    (∀ cols r, (projectDemo cols r).tags =
      (((splitChars isSep (pyStrip (cellAt cols r "Demo")).data).filter
        (fun w => w != "")).map pyLower).filter (fun w => !(ignore.contains w))) ∧
    (projectDemo demosCols c2row).tags = [] := by
  refine ⟨fun cols r => ?_, by decide⟩
  have h : (projectDemo cols r).tags =
      (splitChars isSep (pyStrip (cellAt cols r "Demo")).data).filterMap (fun w =>
        if w ≠ "" ∧ ¬ ignore.contains (pyLower w) then some (pyLower w) else none) := rfl
  rw [h, tagPipeline]

/-- Counterexample to claim C2 as stated: the scenario row derives the
empty tag list, not `["detection"]`. -/
theorem C2_counterexample :
    (projectDemo demosCols c2row).tags = [] ∧ ([] : List String) ≠ ["detection"] := by decide

/-- Claim C3 (amended): the product link and the GitHub index link render
independently — the product link appears iff the `Link` cell is non-empty,
non-blank and not "no" (case-insensitively); the GitHub reference appears
iff its trimmed lower-casing is none of "", "no", "in github index".
There is no either/or precedence, so both can appear on one card. -/
theorem C3_link_rules (cols r : List String) :
    ((cellAt cols r "Link" ≠ "" ∧ pyStrip (cellAt cols r "Link") ≠ "" ∧
        pyLower (cellAt cols r "Link") ≠ "no") →
      (projectInventory cols r).productLinkShown = some (cellAt cols r "Link")) ∧
    (¬ (cellAt cols r "Link" ≠ "" ∧ pyStrip (cellAt cols r "Link") ≠ "" ∧
        pyLower (cellAt cols r "Link") ≠ "no") →
      (projectInventory cols r).productLinkShown = none) ∧
    ((pyLower (pyStrip (cellAt cols r "GithubIndex")) ≠ "" ∧
      pyLower (pyStrip (cellAt cols r "GithubIndex")) ≠ "no" ∧
      pyLower (pyStrip (cellAt cols r "GithubIndex")) ≠ "in github index") →
      (projectInventory cols r).githubLinkShown = some (cellAt cols r "GithubIndex")) ∧
    (¬ (pyLower (pyStrip (cellAt cols r "GithubIndex")) ≠ "" ∧
        pyLower (pyStrip (cellAt cols r "GithubIndex")) ≠ "no" ∧
        pyLower (pyStrip (cellAt cols r "GithubIndex")) ≠ "in github index") →
      (projectInventory cols r).githubLinkShown = none) := by
  have hp : (projectInventory cols r).productLinkShown =
      (if cellAt cols r "Link" ≠ "" ∧ pyStrip (cellAt cols r "Link") ≠ "" ∧
          pyLower (cellAt cols r "Link") ≠ "no" then some (cellAt cols r "Link")
       else none) := rfl
  have hg : (projectInventory cols r).githubLinkShown =
      (if pyLower (pyStrip (cellAt cols r "GithubIndex")) ≠ "" ∧
          pyLower (pyStrip (cellAt cols r "GithubIndex")) ≠ "no" ∧
          pyLower (pyStrip (cellAt cols r "GithubIndex")) ≠ "in github index" then
        some (cellAt cols r "GithubIndex")
       else none) := rfl
  exact ⟨fun h => by rw [hp, if_pos h], fun h => by rw [hp, if_neg h],
         fun h => by rw [hg, if_pos h], fun h => by rw [hg, if_neg h]⟩

/-- Witness for C3 at a row with a valid product link and a valid GitHub
index reference: both links are rendered. -/
theorem C3_link_rules_witness :
    (projectInventory standardCols c3row).productLinkShown = some "http://x" ∧
    (projectInventory standardCols c3row).githubLinkShown = some "http://gh" :=
  ⟨((C3_link_rules standardCols c3row).1 (by decide)).trans (by decide),
   ((C3_link_rules standardCols c3row).2.2.1 (by decide)).trans (by decide)⟩

/-- Counterexample to claim C3 as stated: on `c3row` the card renders two
primary external links at once, not at most one. -/
theorem C3_counterexample :
    (projectInventory standardCols c3row).productLinkShown.isSome = true ∧
    (projectInventory standardCols c3row).githubLinkShown.isSome = true := by decide

/-- Claim C4 (amended): header normalisation ignores spellings entirely —
with at least seven columns, the first seven are positionally renamed to
the standard names whatever they said, and exactly the columns beyond the
seventh pass through unchanged (none are dropped; the total count is
preserved).  There is no alias table. -/
theorem C4_positional_rename (cols : List String) (h : 7 ≤ cols.length) :
    (renameCols cols).take 7 = standardCols ∧
    (renameCols cols).drop 7 = cols.drop 7 ∧
    (renameCols cols).length = cols.length := by
  have hs : standardCols.length = 7 := rfl
  have hle : standardCols.length ≤ cols.length := by rw [hs]; exact h
  have h1 : renameCols cols = standardCols ++ cols.drop 7 := by
    unfold renameCols
    rw [if_pos hle, hs]
  refine ⟨?_, ?_, ?_⟩
  · rw [h1, ← hs, List.take_left]
  · rw [h1, ← hs, List.drop_left]
  · rw [h1, List.length_append, List.length_drop, hs]
    omega

/-- Witness for C4 at the concrete eight-column header `c4cols`. -/
theorem C4_positional_rename_witness :
    (renameCols c4cols).take 7 = standardCols ∧
    (renameCols c4cols).drop 7 = c4cols.drop 7 ∧
    (renameCols c4cols).length = c4cols.length :=
  C4_positional_rename c4cols (by decide)

/-- Counterexample to claim C4 as stated: the header "PN" (a part-number
alias) is renamed positionally to "Manufacturer", not to a part-number
field, and the unrecognised header "Notes" does not pass through — it is
overwritten. -/
theorem C4_counterexample :
    (renameCols c4cols).headD "" = "Manufacturer" ∧
    ("Manufacturer" : String) ≠ "PartNumber" ∧
    "Notes" ∉ renameCols c4cols := by decide

/-- Claim C5 (amended): `load_data` performs no header-row scan — row 0 is
always taken as the header.  The scenario sheet with its true header on
row 3 (under non-blank preamble rows) therefore yields four normalised
rows (the remaining preamble rows, the true header row and the data row),
not one, and the junk cells of row 0 are positionally renamed to the first
six standard names. -/
theorem C5_header_row :
    loadInventory (parseSheet c5grid) =
      ⟨["Manufacturer", "Common Name", "Partnumber", "Link", "Image", "ImageURL"],
       [["internal use only", "", "", "", "", ""],
        ["updated 2024", "", "", "", "", ""],
        ["Mfr", "Name", "PN", "Link", "Img", "GH"],
        ["Acme", "Widget", "W-100", "http://x", "no", "no"]]⟩ := by decide

/-- Counterexample to claim C5 as stated: the scenario sheet yields four
rows (hence four cards), not exactly one. -/
theorem C5_counterexample :
    (loadInventory (parseSheet c5grid)).rows.length = 4 ∧ (4 : Nat) ≠ 1 := by decide

/-- Claim C6 (amended): both image lists preserve spreadsheet column
order; the dashboard list skips exactly the cells that are blank after
trimming or trim to "-", while the demo-image list skips only the cells
that are blank after trimming — a demo-image cell holding "-" is kept. -/
theorem C6_image_lists (cols r : List String) :
    (projectDemo cols r).dashboards =
      (dashCols.map (cellAt cols r)).filter
        (fun v => pyStrip v != "" && pyStrip v != "-") ∧
    (projectDemo cols r).demoImgs =
      (demoImgCols.map (cellAt cols r)).filter (fun v => pyStrip v != "") := by
  constructor
  · have h : (projectDemo cols r).dashboards =
        dashCols.filterMap (fun c =>
          if pyStrip (cellAt cols r c) ≠ "" ∧ pyStrip (cellAt cols r c) ≠ "-" then
            some (cellAt cols r c)
          else none) := rfl
    rw [h, dashPipeline]
  · have h : (projectDemo cols r).demoImgs =
        demoImgCols.filterMap (fun c =>
          if pyStrip (cellAt cols r c) ≠ "" then some (cellAt cols r c) else none) := rfl
    rw [h, imgPipeline]

/-- Counterexample to claim C6 as stated: on `c6row` the sentinel "-" is
skipped by the dashboard list but kept by the demo-image list. -/
theorem C6_counterexample :
    (projectDemo demosCols c6row).demoImgs = ["-"] ∧
    (projectDemo demosCols c6row).dashboards = [] := by decide

/-- Claim C8 (amended): every row of the normalised inventory is the
cell-wise trimming of a source row whose RAW `Manufacturer` cell does not
lower-case to "manufacturer" (the duplicate-header filter runs before
trimming); because trimming happens afterwards, a surviving row's own
`Manufacturer` value may still lower-case to "manufacturer". -/
theorem C8_header_echo_drop (sheet : Frame) (r : List String)
    (h : r ∈ (loadInventory sheet).rows) :
    ∃ s, s ∈ sheet.rows ∧ r = s.map pyStrip ∧
      pyLower (cellAt (renameCols sheet.columns) s "Manufacturer") ≠ "manufacturer" := by
  have hr : (loadInventory sheet).rows =
      (sheet.rows.filter (fun s =>
        pyLower (cellAt (renameCols sheet.columns) s "Manufacturer") != "manufacturer")).map
        (fun s => s.map pyStrip) := rfl
  rw [hr] at h
  obtain ⟨s, hs, hmap⟩ := List.mem_map.mp h
  obtain ⟨hmem, hpred⟩ := List.mem_filter.mp hs
  exact ⟨s, hmem, hmap.symm, by simpa using hpred⟩

/-- Witness for C8 at the concrete sheet `c8sheet` and its surviving
normalised row. -/
theorem C8_header_echo_drop_witness :
    ∃ s, s ∈ c8sheet.rows ∧
      (["Manufacturer", "Widget", "W-1", "", "", "", ""] : List String) = s.map pyStrip ∧
      pyLower (cellAt (renameCols c8sheet.columns) s "Manufacturer") ≠ "manufacturer" :=
  C8_header_echo_drop c8sheet ["Manufacturer", "Widget", "W-1", "", "", "", ""] (by decide)

/-- Counterexample to claim C8 as stated: the normalised row-set of
`c8sheet` contains a row whose `Manufacturer` value lower-cases to
"manufacturer" (the raw cell " Manufacturer " survives the pre-trim
filter and is then trimmed). -/
theorem C8_counterexample :
    (loadInventory c8sheet).rows.map
      (fun r => pyLower (cellAt (loadInventory c8sheet).columns r "Manufacturer")) =
      ["manufacturer"] := by decide

/-- Claim C10 (amended): no repository link is rendered when the trimmed
`Github Link` cell is empty, or lower-cases to "no" or to "-"; otherwise a
link is rendered, prefixed with "https://" exactly when the trimmed value
does not case-insensitively start with "http". -/
theorem C10_github_link (cols r : List String) :
    ((pyStrip (cellAt cols r "Github Link") = "" ∨
      pyLower (pyStrip (cellAt cols r "Github Link")) = "no" ∨
      pyLower (pyStrip (cellAt cols r "Github Link")) = "-") →
      (projectDemo cols r).githubLinkShown = none) ∧
    (pyStrip (cellAt cols r "Github Link") ≠ "" →
      pyLower (pyStrip (cellAt cols r "Github Link")) ≠ "no" →
      pyLower (pyStrip (cellAt cols r "Github Link")) ≠ "-" →
      (projectDemo cols r).githubLinkShown =
        some (if pyStartsWith (pyLower (pyStrip (cellAt cols r "Github Link"))) "http" then
                pyStrip (cellAt cols r "Github Link")
              else "https://" ++ pyStrip (cellAt cols r "Github Link"))) := by
  have hg : (projectDemo cols r).githubLinkShown =
      (if pyStrip (cellAt cols r "Github Link") ≠ "" ∧
          pyLower (pyStrip (cellAt cols r "Github Link")) ≠ "no" ∧
          pyLower (pyStrip (cellAt cols r "Github Link")) ≠ "-" then
        some (if pyStartsWith (pyLower (pyStrip (cellAt cols r "Github Link"))) "http" then
                pyStrip (cellAt cols r "Github Link")
              else "https://" ++ pyStrip (cellAt cols r "Github Link"))
      else none) := rfl
  constructor
  · intro h
    rw [hg, if_neg]
    rintro ⟨h1, h2, h3⟩
    rcases h with h | h | h
    · exact h1 h
    · exact h2 h
    · exact h3 h
  · intro h1 h2 h3
    rw [hg, if_pos ⟨h1, h2, h3⟩]

/-- Witness for C10 at a row whose GitHub link lacks a scheme: the link is
rendered with the "https://" prefix. -/
theorem C10_github_link_witness :
    (projectDemo demosCols c10wrow).githubLinkShown = some "https://github.com/acme/repo" :=
  ((C10_github_link demosCols c10wrow).2 (by decide) (by decide) (by decide)).trans (by decide)

/-- Counterexample to claim C10 as stated: on `c10row` the trimmed GitHub
link field is neither "no" nor "-" (it is empty), so the claim requires a
link, yet no repository link is rendered. -/
theorem C10_counterexample :
    pyLower (pyStrip (cellAt demosCols c10row "Github Link")) ≠ "no" ∧
    pyStrip (cellAt demosCols c10row "Github Link") ≠ "-" ∧
    (projectDemo demosCols c10row).githubLinkShown = none := by decide
